import Mathlib

/-!
Shallow embedding of `hoaxy/sns/twitter/stream.py` (class `TwitterStream`).

Durations are modelled as rationals: every delay arising from the shipped
`BACKOFF_PARAMS` table (linear steps of 0.25 starting at 0, exponential
doublings of 5 and 60) is exactly representable in binary floating point,
so ℚ is a faithful model of the Python float arithmetic on these values.

Exceptions are modelled as an explicit error type; Python's mutation
semantics are modelled by threading state explicitly.  A raise inside
`_backoff` happens before any assignment to `self._backoff_sleep` /
`self._backoff_strategy` (the ValueError at line 125 precedes both assignments, the TwitterStreamError at line 136 precedes the growth at lines
138/140), so an `Except.error` result carries no new state: the caller
keeps the old one.
-/

/-- Exceptions raised by the transport layer and classified by the
`except` clauses of `TwitterStream.stream` (lines 202-228).  Each
constructor stands for the most derived class that reaches the
corresponding clause; the Python subclass overlaps (e.g. `ConnectTimeout`
is both a `ConnectionError` and a `Timeout`) are resolved by clause order
in the source, which the constructor-to-clause mapping below reproduces. -/
inductive TransportExc where
  | connectTimeout
  | readTimeout
  | connectionError
  | httpError (status : Nat)
  | socketError
deriving DecidableEq

/-- Exceptions that can be pending inside the session loop. -/
inductive PyExc where
  | transport (e : TransportExc)
  | twitterStreamError
  | systemExit
  | typeError
  | unboundLocalError
  | valueError (msg : String)
deriving DecidableEq

/-- One entry of the `BACKOFF_PARAMS` table (lines 33-52).  The source
dicts carry either a `step` key (linear kinds) or a `factor` key
(exponential kinds); the field not present in the source dict is set to 0
here and is never read on the kind's code path. -/
structure BackoffSpec where
  time : ℚ
  kind : String
  step : ℚ
  factor : ℚ
  max : ℚ
deriving DecidableEq

/-- The `BACKOFF_PARAMS` dict (lines 33-52), as a lookup returning `none`
exactly when the Python dict indexing would raise `KeyError`. -/
def BACKOFF_PARAMS (strategy : String) : Option BackoffSpec :=
  if strategy = "tcp" then some ⟨0, "linear", 1/4, 0, 16⟩
  else if strategy = "http" then some ⟨5, "exponential", 0, 2, 320⟩
  else if strategy = "http_420" then some ⟨60, "exponential", 0, 2, 600⟩
  else none

/-- The mutable backoff fields of `TwitterStream`:
`_backoff_sleep` and `_backoff_strategy` (lines 91-92). -/
structure BackoffState where
  sleep : Option ℚ
  strategy : Option String
deriving DecidableEq

/-- Python `__init__` sets both fields to `None` (lines 91-92), and
`_reset_backoff` (lines 145-148) restores exactly that state. -/
def resetBackoff : BackoffState := ⟨none, none⟩

/-- Growth of the sleep (lines 137-140): linear adds `step`, anything
else multiplies by `factor`. -/
def growDelay (params : BackoffSpec) (d : ℚ) : ℚ :=
  if params.kind = "linear" then d + params.step else d * params.factor

/-- Model of `TwitterStream._backoff` (lines 111-143).  Returns the new state and
the duration passed to `time.sleep` at line 143, or the exception raised:
`ValueError` on an unknown strategy (line 125), `TwitterStreamError` when
a continuing backoff has already reached the ceiling (lines 133-136). -/
def backoff (st : BackoffState) (strategy : String) :
    Except PyExc (BackoffState × ℚ) :=
  match BACKOFF_PARAMS strategy with
  | none => Except.error (PyExc.valueError ("unknown strategy: " ++ strategy))
  | some params =>
    match st.sleep with
    | none =>
      -- first backoff: start with the initial time (lines 126-130)
      Except.ok ({ sleep := some params.time, strategy := some strategy },
        params.time)
    | some d =>
      if st.strategy ≠ some strategy then
        -- strategy changed: restart from the initial time (lines 126-130)
        Except.ok ({ sleep := some params.time, strategy := some strategy },
          params.time)
      else if params.max ≤ d then
        -- `self._backoff_sleep >= params['max']` (line 133)
        Except.error PyExc.twitterStreamError
      else
        Except.ok
          ({ sleep := some (growDelay params d), strategy := some strategy },
            growDelay params d)

/-- Result of the `n+1`-th of a run of consecutive `_backoff cat` calls
starting from the reset state. -/
def nthBackoff (cat : String) : Nat → Except PyExc (BackoffState × ℚ)
  | 0 => backoff resetBackoff cat
  | n + 1 =>
    match nthBackoff cat n with
    | Except.ok (st, _) => backoff st cat
    | Except.error e => Except.error e

/-- A downstream handler: `isQueueHandler` models
`isinstance(handler, QueueHandler)` and `alive` the result of its
`is_alive()` probe (line 170). -/
structure Handler where
  isQueueHandler : Bool
  alive : Bool
deriving DecidableEq

/-- A JSON value as far as Python's `'key' in jd` membership test
distinguishes them: dict (key membership on its key set), list (element
equality against the key), str (substring), and the non-container scalars
on which `in` raises `TypeError`. -/
inductive PyJson where
  | obj (keys : List String)
  | arr (elems : List PyJson)
  | str (s : String)
  | num (n : Int)
  | boolVal (b : Bool)
  | null

/-- Python `key in jd` (line 163): key membership for dicts, element
membership for lists, substring for strings, `TypeError` otherwise. -/
def pyContains (jd : PyJson) (key : String) : Except PyExc Bool :=
  match jd with
  | PyJson.obj keys => Except.ok (decide (key ∈ keys))
  | PyJson.arr elems =>
    Except.ok (elems.any fun e =>
      match e with
      | PyJson.str s => decide (s = key)
      | _ => false)
  | PyJson.str s => Except.ok (decide (key.toList <:+: s.toList))
  | PyJson.num _ => Except.error PyExc.typeError
  | PyJson.boolVal _ => Except.error PyExc.typeError
  | PyJson.null => Except.error PyExc.typeError

/-- The short-circuit conjunction
`'in_reply_to_status_id' in jd and 'user' in jd and 'id' in jd`
of line 163. -/
def checkFields (jd : PyJson) : Except PyExc Bool :=
  match pyContains jd "in_reply_to_status_id" with
  | Except.error e => Except.error e
  | Except.ok false => Except.ok false
  | Except.ok true =>
    match pyContains jd "user" with
    | Except.error e => Except.error e
    | Except.ok false => Except.ok false
    | Except.ok true => pyContains jd "id"

/-- One raw line from `resp.iter_lines()` as `process_one_line` sees it:
falsy (empty / keep-alive), not valid JSON (`json.loads` raises
`JSONDecodeError`), or valid JSON with parsed value `jd`. -/
inductive RawLine where
  | empty
  | invalid (raw : String)
  | parsed (jd : PyJson)

/-- The handler fan-out loop of lines 169-172: before each handler's
`process_one`, a `QueueHandler` whose `is_alive()` is false raises
`SystemExit` (line 171).  Returns the indices of the handlers whose
`process_one` ran, in order, and the raised exception if any. -/
def handlerLoop : List Handler → Nat → List Nat × Option PyExc
  | [], _ => ([], none)
  | h :: rest, i =>
    if h.isQueueHandler && !h.alive then ([], some PyExc.systemExit)
    else
      match handlerLoop rest (i + 1) with
      | (inv, e) => (i :: inv, e)

/-- Everything observable about one `process_one_line` call:
the Python return value (`none` when an exception was raised instead),
the final `self._counter`, the handlers invoked, whether the progress log
of line 168 fired, whether the error log of line 161/164 fired, and the
raised exception if any. -/
structure ProcResult where
  retval : Option Bool
  counter : Nat
  invoked : List Nat
  progressLogged : Bool
  errorLogged : Bool
  exc : Option PyExc
deriving DecidableEq

/-- Model of `TwitterStream.process_one_line` (lines 150-173), with `counter` the
incoming `self._counter` and `ws` the `window_size`. -/
def processOneLine (handlers : List Handler) (ws : Nat) (counter : Nat) :
    RawLine → ProcResult
  | RawLine.empty => ⟨some true, counter, [], false, false, none⟩
  | RawLine.invalid _ => ⟨some false, counter, [], false, true, none⟩
  | RawLine.parsed jd =>
    match checkFields jd with
    | Except.error e => ⟨none, counter, [], false, false, some e⟩
    | Except.ok false => ⟨some false, counter, [], false, true, none⟩
    | Except.ok true =>
      let c := counter + 1
      let prog := decide (c % ws = 0)
      match handlerLoop handlers 0 with
      | (inv, some e) => ⟨none, c, inv, prog, false, some e⟩
      | (inv, none) => ⟨some true, c, inv, prog, false, none⟩

/-- State reached by the in-connection line loop. -/
structure ConnLoopOut where
  counter : Nat
  dataLines : Nat
  bst : BackoffState
  exc : Option PyExc
deriving DecidableEq

/-- The `for line in resp.iter_lines()` body (lines 187-199): process the
line, then `data_lines += 1`; once `data_lines >= 8`, `_reset_backoff()`
and zero the counter, and keep reading from the same connection. -/
def connectedLoop (handlers : List Handler) (ws : Nat) :
    List RawLine → Nat → Nat → BackoffState → ConnLoopOut
  | [], c, d, b => ⟨c, d, b, none⟩
  | l :: rest, c, d, b =>
    let r := processOneLine handlers ws c l
    match r.exc with
    | some e => ⟨r.counter, d, b, some e⟩
    | none =>
      if 8 ≤ d + 1 then connectedLoop handlers ws rest r.counter 0 resetBackoff
      else connectedLoop handlers ws rest r.counter (d + 1) b

/-- The per-session mutable state that survives one iteration of the
`while True` loop, plus whether the local variable `resp` is bound. -/
structure LoopState where
  backoffSt : BackoffState
  counter : Nat
  respBound : Bool
deriving DecidableEq

/-- What the transport did during one iteration: `failed e` means
`self.client.post` raised `e` (so `resp` was not (re)bound this
iteration); `opened lines ending` means the POST returned a response,
`lines` were yielded by `iter_lines`, and then either iteration ended
normally (`ending = none`) or the transport raised `ending = some e`. -/
inductive ConnAttempt where
  | failed (e : TransportExc)
  | opened (lines : List RawLine) (ending : Option TransportExc)

/-- Value of `self._conn_timeout_sleep` (line 93). -/
def conn_timeout_sleep : ℚ := 1/2

/-- First-set choice on options (used to merge the at-most-one backoff
call recorded by the `try` suite and by the `except` ladder). -/
def orO {α : Type} : Option α → Option α → Option α
  | some a, _ => some a
  | none, b => b

/-- The `except` clause ladder of lines 202-228, applied to a pending
exception.  Returns the backoff state after the handler ran, the still
pending exception (the clauses match only transport exceptions; a
`TwitterStreamError` raised by `_backoff` inside a clause becomes the new
pending exception), whether the fixed `time.sleep(0.5)` of line 207 ran,
and the category and delay of the `_backoff` call if one was made. -/
def exceptStep (bst : BackoffState) (pending : Option PyExc) :
    BackoffState × Option PyExc × Bool × Option String × Option ℚ :=
  let doB := fun (cat : String) =>
    match backoff bst cat with
    | Except.ok (b, d) => (b, (none : Option PyExc), false, some cat, some d)
    | Except.error e => (bst, some e, false, some cat, (none : Option ℚ))
  match pending with
  | some (PyExc.transport TransportExc.connectTimeout) =>
    (bst, none, true, none, none)
  | some (PyExc.transport TransportExc.readTimeout) => doB "tcp"
  | some (PyExc.transport TransportExc.connectionError) => doB "tcp"
  | some (PyExc.transport (TransportExc.httpError status)) =>
    if status = 420 then doB "http_420" else doB "http"
  | some (PyExc.transport TransportExc.socketError) => doB "tcp"
  | p => (bst, p, false, none, none)

/-- The `finally` block of lines 229-232: `resp.close()` succeeds when
`resp` is bound; otherwise Python raises `UnboundLocalError`, which
replaces any pending exception. -/
def finallyStep (respBound : Bool) (pending : Option PyExc) :
    Bool × Option PyExc :=
  if respBound then (true, pending)
  else (false, some PyExc.unboundLocalError)

/-- Everything observable about one iteration of the `while True` body. -/
structure IterResult where
  backoffSt : BackoffState
  counter : Nat
  respBound : Bool
  closedResp : Bool
  fixedSlept : Bool
  backoffCat : Option String
  backoffDelay : Option ℚ
  raised : Option PyExc
deriving DecidableEq

/-- One iteration of the `while True` body of `TwitterStream.stream`
(lines 179-232): the `try` suite (connect at line 182, the line loop,
then `self._backoff('tcp')` at line 201 on normal end of stream), the
`except` ladder, and the `finally` block.  `raised = none` means the loop
continues with the next iteration; `raised = some e` means `e` propagates
out of the `while` loop, ending the session. -/
def streamIter (handlers : List Handler) (ws : Nat) (st : LoopState)
    (att : ConnAttempt) : IterResult :=
  let tryOut : Bool × Nat × BackoffState × Option PyExc × Option String × Option ℚ :=
    match att with
    | ConnAttempt.failed e =>
      (st.respBound, st.counter, st.backoffSt, some (PyExc.transport e), none, none)
    | ConnAttempt.opened lines ending =>
      let out := connectedLoop handlers ws lines st.counter 0 st.backoffSt
      match out.exc with
      | some e => (true, out.counter, out.bst, some e, none, none)
      | none =>
        match ending with
        | some e => (true, out.counter, out.bst, some (PyExc.transport e), none, none)
        | none =>
          match backoff out.bst "tcp" with
          | Except.ok bd =>
            (true, out.counter, bd.1, none, some "tcp", some bd.2)
          | Except.error e =>
            (true, out.counter, out.bst, some e, some "tcp", none)
  match tryOut with
  | (rb, c, b1, pending, cat1, delay1) =>
    match exceptStep b1 pending with
    | (b2, pending2, fixed, cat2, delay2) =>
      match finallyStep rb pending2 with
      | (closed, finalExc) =>
        { backoffSt := b2, counter := c, respBound := rb,
          closedResp := closed, fixedSlept := fixed,
          backoffCat := orO cat1 cat2, backoffDelay := orO delay1 delay2,
          raised := finalExc }

/-- The BackoffState invariant of the spec's data model. -/
def BackoffInv (st : BackoffState) : Prop :=
  st.sleep = none ↔ st.strategy = none

/-! ## Helper lemmas about the backoff controller -/

/-- Evaluation of `_backoff` on a first call for a category: the sleep is
`None`, or the active strategy differs.  No ceiling check happens. -/
theorem backoff_first_entry (cat : String) (params : BackoffSpec)
    (st : BackoffState) (hp : BACKOFF_PARAMS cat = some params)
    (hst : st.sleep = none ∨ st.strategy ≠ some cat) :
    backoff st cat =
      Except.ok ({ sleep := some params.time, strategy := some cat },
        params.time) := by
  rcases st with ⟨sl, str⟩
  rcases hst with h | h
  · subst h
    simp [backoff, hp]
  · cases sl with
    | none => simp [backoff, hp]
    | some d => simp only [backoff, hp]
                rw [if_pos h]

/-- Evaluation of `_backoff` on a continuing call: the ceiling is checked
against the PREVIOUS sleep value first; only if it is below the ceiling
is the sleep grown and returned. -/
theorem backoff_continue (cat : String) (params : BackoffSpec) (d : ℚ)
    (hp : BACKOFF_PARAMS cat = some params) :
    backoff ⟨some d, some cat⟩ cat =
      if params.max ≤ d then Except.error PyExc.twitterStreamError
      else
        Except.ok ({ sleep := some (growDelay params d), strategy := some cat },
          growDelay params d) := by
  simp [backoff, hp]

/-- The delays of consecutive `tcp` backoffs: the `n`-th call returns
`n * 0.25`, for `n ≤ 64` (so the 65th call returns 16.0, the ceiling). -/
theorem nthBackoff_tcp (k : Nat) (hk : k ≤ 64) :
    nthBackoff "tcp" k =
      Except.ok (⟨some ((k : ℚ) / 4), some "tcp"⟩, (k : ℚ) / 4) := by
  induction k with
  | zero =>
    have : ((0 : Nat) : ℚ) / 4 = 0 := by norm_num
    rw [this]
    show backoff resetBackoff "tcp" = _
    rw [backoff_first_entry "tcp" ⟨0, "linear", 1/4, 0, 16⟩ resetBackoff rfl
      (Or.inl rfl)]
  | succ n ih =>
    have hn : n ≤ 64 := by omega
    have hlt : (n : ℚ) / 4 < 16 := by
      have h63 : (n : ℚ) ≤ 63 := by exact_mod_cast (by omega : n ≤ 63)
      linarith
    have hstep := backoff_continue "tcp" ⟨0, "linear", 1/4, 0, 16⟩
      ((n : ℚ) / 4) rfl
    rw [if_neg (by exact not_le.mpr hlt)] at hstep
    have harith : (n : ℚ) / 4 + 1 / 4 = ((n + 1 : Nat) : ℚ) / 4 := by
      push_cast
      ring
    show (match nthBackoff "tcp" n with
      | Except.ok (st, _) => backoff st "tcp"
      | Except.error e => Except.error e) = _
    rw [ih hn]
    show backoff ⟨some ((n : ℚ) / 4), some "tcp"⟩ "tcp" = _
    rw [hstep]
    simp only [growDelay]
    norm_num [harith]

/-! ## Claim C1 -/

/-- C1 counterexample: the claim says the `tcp` call that would produce a
delay of 16.0 raises the fatal condition instead of returning 16.0.  In
the code the ceiling is checked BEFORE growing, against the previous
delay, so that call (the 65th consecutive `tcp` backoff) returns 16.0;
only the following call raises. -/
theorem C1_counterexample :
    nthBackoff "tcp" 64 =
      Except.ok (⟨some 16, some "tcp"⟩, 16) := by
  have h := nthBackoff_tcp 64 (by omega)
  norm_num at h
  exact h

/-- C1 amended: on a continuing call under the active category the
controller first checks the ceiling against the PREVIOUS delay — raising
the fatal `TwitterStreamError` when it already reached `max_delay` — and
only otherwise grows the delay and returns it.  Under the tcp spec the
successive delays are exactly 0, 0.25, ..., 15.75, 16.0 (16.0 IS
returned), and the call after the one returning 16.0 raises. -/
theorem C1_growth_after_check :
    (∀ cat params d, BACKOFF_PARAMS cat = some params → params.max ≤ d →
      backoff ⟨some d, some cat⟩ cat = Except.error PyExc.twitterStreamError) ∧
    (∀ cat params d, BACKOFF_PARAMS cat = some params → d < params.max →
      backoff ⟨some d, some cat⟩ cat =
        Except.ok (⟨some (growDelay params d), some cat⟩, growDelay params d)) ∧
    (∀ k : Nat, k ≤ 64 →
      nthBackoff "tcp" k =
        Except.ok (⟨some ((k : ℚ) / 4), some "tcp"⟩, (k : ℚ) / 4)) ∧
    nthBackoff "tcp" 65 = Except.error PyExc.twitterStreamError := by
  refine ⟨?_, ?_, nthBackoff_tcp, ?_⟩
  · intro cat params d hp hge
    rw [backoff_continue cat params d hp, if_pos hge]
  · intro cat params d hp hlt
    rw [backoff_continue cat params d hp, if_neg (not_le.mpr hlt)]
  · show (match nthBackoff "tcp" 64 with
      | Except.ok (st, _) => backoff st "tcp"
      | Except.error e => Except.error e) = _
    have h := nthBackoff_tcp 64 (by omega)
    norm_num at h
    rw [h]
    show backoff ⟨some 16, some "tcp"⟩ "tcp" = _
    rw [backoff_continue "tcp" ⟨0, "linear", 1/4, 0, 16⟩ 16 rfl,
      if_pos (by norm_num)]

/-- Witness for `C1_growth_after_check` at concrete inputs. -/
theorem C1_growth_after_check_witness :
    backoff ⟨some 16, some "tcp"⟩ "tcp" =
      Except.error PyExc.twitterStreamError ∧
    backoff ⟨some 5, some "http"⟩ "http" =
      Except.ok (⟨some 10, some "http"⟩, 10) ∧
    nthBackoff "tcp" 8 = Except.ok (⟨some 2, some "tcp"⟩, 2) := by
  refine ⟨?_, ?_, ?_⟩
  · exact C1_growth_after_check.1 "tcp" ⟨0, "linear", 1/4, 0, 16⟩ 16 rfl
      (by norm_num)
  · have h := C1_growth_after_check.2.1 "http" ⟨5, "exponential", 0, 2, 320⟩ 5
      rfl (by norm_num)
    norm_num [growDelay] at h
    exact h
  · have h := C1_growth_after_check.2.2.1 8 (by omega)
    norm_num at h
    exact h

/-! ## Claim C4 -/

/-- C4: a first `compute_delay` call after reset, or a call whose
category differs from the active one, performs no ceiling check and
returns exactly that category's initial delay, whatever the prior state
under a different category was; after a reset the next call of any
category behaves as a first call. -/
theorem C4_first_call :
    (∀ cat params st, BACKOFF_PARAMS cat = some params →
      (st.sleep = none ∨ st.strategy ≠ some cat) →
      backoff st cat =
        Except.ok ({ sleep := some params.time, strategy := some cat },
          params.time)) ∧
    (∀ cat params, BACKOFF_PARAMS cat = some params →
      backoff resetBackoff cat =
        Except.ok ({ sleep := some params.time, strategy := some cat },
          params.time)) := by
  refine ⟨backoff_first_entry, ?_⟩
  intro cat params hp
  exact backoff_first_entry cat params resetBackoff hp (Or.inl rfl)

/-- Witness for `C4_first_call`: a `http_420` call while deep into `tcp`
backoff (delay 1000000, far beyond every ceiling) still returns the
initial 60-second delay, without any ceiling check. -/
theorem C4_first_call_witness :
    backoff ⟨some 1000000, some "tcp"⟩ "http_420" =
      Except.ok (⟨some 60, some "http_420"⟩, 60) ∧
    backoff resetBackoff "http" = Except.ok (⟨some 5, some "http"⟩, 5) := by
  constructor
  · have h := C4_first_call.1 "http_420" ⟨60, "exponential", 0, 2, 600⟩
      ⟨some 1000000, some "tcp"⟩ rfl (Or.inr (by simp))
    simpa using h
  · have h := C4_first_call.2 "http" ⟨5, "exponential", 0, 2, 320⟩ rfl
    simpa using h

/-! ## Claim C9 -/

/-- C9: the BackoffState invariant.  The reset state satisfies it, and
every `compute_delay` call that RETURNS yields a state with both fields
set, the category being the one just used and the delay the one just
computed (so the invariant holds and `active_category` matches the spec
last used).  A call that raises leaves the state unchanged by
construction (the raises in `_backoff` precede every assignment), so the
invariant is preserved by every operation. -/
theorem C9_backoff_invariant :
    BackoffInv resetBackoff ∧
    (∀ st cat st' d, backoff st cat = Except.ok (st', d) →
      BackoffInv st' ∧ st'.strategy = some cat ∧ st'.sleep = some d) := by
  constructor
  · simp [BackoffInv, resetBackoff]
  · intro st cat st' d h
    rcases st with ⟨sl, str⟩
    cases hp : BACKOFF_PARAMS cat with
    | none => simp [backoff, hp] at h
    | some params =>
      cases sl with
      | none =>
        simp only [backoff, hp] at h
        injection h with h
        injection h with h1 h2
        subst h1; subst h2
        simp [BackoffInv]
      | some dd =>
        simp only [backoff, hp] at h
        split at h
        · injection h with h
          injection h with h1 h2
          subst h1; subst h2
          simp [BackoffInv]
        · split at h
          · exact absurd h (by simp)
          · injection h with h
            injection h with h1 h2
            subst h1; subst h2
            simp [BackoffInv]

/-- Witness for `C9_backoff_invariant` at a concrete successful call. -/
theorem C9_backoff_invariant_witness :
    BackoffInv resetBackoff ∧
    (BackoffInv (⟨some 0, some "tcp"⟩ : BackoffState) ∧
      (⟨some 0, some "tcp"⟩ : BackoffState).strategy = some "tcp" ∧
      (⟨some 0, some "tcp"⟩ : BackoffState).sleep = some 0) := by
  refine ⟨C9_backoff_invariant.1, ?_⟩
  exact C9_backoff_invariant.2 resetBackoff "tcp" ⟨some 0, some "tcp"⟩ 0
    (backoff_first_entry "tcp" ⟨0, "linear", 1/4, 0, 16⟩ resetBackoff rfl
      (Or.inl rfl))

/-! ## Claim C10 -/

/-- C10: a `_backoff` call with a category outside {tcp, http, http_420}
raises `ValueError` naming the unknown strategy, whatever the state is
(and since the raise precedes every assignment, the state is left
unchanged by that call). -/
theorem C10_unknown_strategy :
    ∀ (st : BackoffState) (cat : String),
      cat ≠ "tcp" → cat ≠ "http" → cat ≠ "http_420" →
      backoff st cat =
        Except.error (PyExc.valueError ("unknown strategy: " ++ cat)) := by
  intro st cat h1 h2 h3
  rcases st with ⟨sl, str⟩
  simp [backoff, BACKOFF_PARAMS, h1, h2, h3]

/-- Witness for `C10_unknown_strategy`: category `"udp"`. -/
theorem C10_unknown_strategy_witness :
    backoff ⟨some 3, some "tcp"⟩ "udp" =
      Except.error (PyExc.valueError ("unknown strategy: " ++ "udp")) :=
  C10_unknown_strategy ⟨some 3, some "tcp"⟩ "udp" (by decide) (by decide)
    (by decide)

/-! ## Helper lemmas about line processing -/

/-- The handler loop with only live handlers invokes every handler, in
order, exactly once, and raises nothing. -/
theorem handlerLoop_alive :
    ∀ (hs : List Handler) (i : Nat),
      (∀ h ∈ hs, h.isQueueHandler = true → h.alive = true) →
      handlerLoop hs i = (List.range' i hs.length, none) := by
  intro hs
  induction hs with
  | nil => intro i _; simp [handlerLoop, List.range']
  | cons h rest ih =>
    intro i hall
    have hc : ¬((h.isQueueHandler && !h.alive) = true) := by
      cases hq : h.isQueueHandler with
      | false => simp
      | true => simp [hall h (by simp) hq]
    rw [handlerLoop, if_neg hc, ih (i + 1) (fun g hg => hall g (by simp [hg]))]
    simp [List.range']

/-- The handler loop with a dead `QueueHandler` somewhere in the list
raises `SystemExit`. -/
theorem handlerLoop_dead :
    ∀ (hs : List Handler) (i : Nat),
      (∃ h ∈ hs, h.isQueueHandler = true ∧ h.alive = false) →
      (handlerLoop hs i).2 = some PyExc.systemExit := by
  intro hs
  induction hs with
  | nil =>
    rintro i ⟨h, hmem, -⟩
    simp at hmem
  | cons h rest ih =>
    rintro i ⟨g, hg, hq, ha⟩
    by_cases hc : (h.isQueueHandler && !h.alive) = true
    · rw [handlerLoop, if_pos hc]
    · rw [handlerLoop, if_neg hc]
      rcases List.mem_cons.mp hg with rfl | hgr
      · exact absurd (by simp [hq, ha]) hc
      · have h2 := ih (i + 1) ⟨g, hgr, hq, ha⟩
        rcases hr : handlerLoop rest (i + 1) with ⟨inv, e⟩
        rw [hr] at h2
        simpa using h2

/-- Evaluation of `checkFields` on a JSON object holding all three required keys. -/
theorem checkFields_obj_all (keys : List String)
    (h1 : "in_reply_to_status_id" ∈ keys) (h2 : "user" ∈ keys)
    (h3 : "id" ∈ keys) :
    checkFields (PyJson.obj keys) = Except.ok true := by
  simp [checkFields, pyContains, h1, h2, h3]

/-- C7: a line parsing to a JSON object with the three required fields
returns true, increments the counter by exactly 1, invokes every
registered handler exactly once in registration order, and fires the
progress log exactly when the new counter is a positive multiple of the
window size. -/
theorem C7_valid_record :
    ∀ (handlers : List Handler) (ws c : Nat) (keys : List String),
      0 < ws →
      "in_reply_to_status_id" ∈ keys → "user" ∈ keys → "id" ∈ keys →
      (∀ h ∈ handlers, h.isQueueHandler = true → h.alive = true) →
      processOneLine handlers ws c (RawLine.parsed (PyJson.obj keys)) =
        { retval := some true, counter := c + 1,
          invoked := List.range handlers.length,
          progressLogged := decide ((c + 1) % ws = 0), errorLogged := false,
          exc := none } ∧
      (decide ((c + 1) % ws = 0) = true ↔ ∃ k, 0 < k ∧ c + 1 = ws * k) := by
  intro handlers ws c keys hws h1 h2 h3 halive
  constructor
  · simp only [processOneLine, checkFields_obj_all keys h1 h2 h3,
      handlerLoop_alive handlers 0 halive]
    simp [List.range_eq_range']
  · rw [decide_eq_true_iff]
    constructor
    · intro hmod
      have hdvd : ws ∣ c + 1 := Nat.dvd_of_mod_eq_zero hmod
      exact ⟨(c + 1) / ws,
        Nat.div_pos (Nat.le_of_dvd (Nat.succ_pos c) hdvd) hws,
        (Nat.mul_div_cancel' hdvd).symm⟩
    · rintro ⟨k, -, hck⟩
      rw [hck]
      exact Nat.mul_mod_right ws k

/-- Witness for `C7_valid_record`: two live handlers, window 2, counter
going from 1 to 2 (a positive multiple of 2, so the progress log fires). -/
theorem C7_valid_record_witness :
    processOneLine [⟨false, true⟩, ⟨true, true⟩] 2 1
        (RawLine.parsed (PyJson.obj ["in_reply_to_status_id", "user", "id"])) =
      { retval := some true, counter := 1 + 1, invoked := List.range 2,
        progressLogged := decide ((1 + 1) % 2 = 0), errorLogged := false,
        exc := none } ∧
    (decide ((1 + 1) % 2 = 0) = true ↔ ∃ k, 0 < k ∧ 1 + 1 = 2 * k) :=
  C7_valid_record [⟨false, true⟩, ⟨true, true⟩] 2 1
    ["in_reply_to_status_id", "user", "id"] (by omega) (by decide) (by decide)
    (by decide) (by decide)

/-! ## Claim C8 -/

/-- C6: if some registered handler exposes a liveness probe
(a `QueueHandler`) and reports not-alive when a valid record is about to
be forwarded, `SystemExit` is raised; the in-connection loop processes no
further lines; and the session loop does not continue to another
reconnect attempt — the exception propagates out of the `while` loop
(after the connection is closed), a hard stop. -/
theorem C6_dead_consumer :
    ∀ (handlers : List Handler) (ws c : Nat) (jd : PyJson) (l : RawLine)
      (rest : List RawLine) (d : Nat) (b : BackoffState) (st : LoopState)
      (lines : List RawLine) (ending : Option TransportExc),
      ((∃ h ∈ handlers, h.isQueueHandler = true ∧ h.alive = false) →
        checkFields jd = Except.ok true →
        (processOneLine handlers ws c (RawLine.parsed jd)).exc =
          some PyExc.systemExit) ∧
      ((processOneLine handlers ws c l).exc = some PyExc.systemExit →
        connectedLoop handlers ws (l :: rest) c d b =
          ⟨(processOneLine handlers ws c l).counter, d, b,
            some PyExc.systemExit⟩) ∧
      ((connectedLoop handlers ws lines st.counter 0 st.backoffSt).exc =
          some PyExc.systemExit →
        (streamIter handlers ws st (ConnAttempt.opened lines ending)).raised =
          some PyExc.systemExit ∧
        (streamIter handlers ws st
          (ConnAttempt.opened lines ending)).closedResp = true) := by
  intro handlers ws c jd l rest d b st lines ending
  refine ⟨?_, ?_, ?_⟩
  · intro hdead hcf
    rcases hr : handlerLoop handlers 0 with ⟨inv, e⟩
    have hd2 := handlerLoop_dead handlers 0 hdead
    rw [hr] at hd2
    simp only at hd2
    subst hd2
    simp only [processOneLine, hcf, hr]
  · intro hexc
    show (match (processOneLine handlers ws c l).exc with
      | some e =>
        (⟨(processOneLine handlers ws c l).counter, d, b, some e⟩ : ConnLoopOut)
      | none =>
        if 8 ≤ d + 1 then
          connectedLoop handlers ws rest
            (processOneLine handlers ws c l).counter 0 resetBackoff
        else
          connectedLoop handlers ws rest
            (processOneLine handlers ws c l).counter (d + 1) b) = _
    rw [hexc]
  · intro hexc
    rcases hout : connectedLoop handlers ws lines st.counter 0 st.backoffSt
      with ⟨oc, od, ob, oe⟩
    rw [hout] at hexc
    simp only at hexc
    subst hexc
    constructor <;> simp [streamIter, hout, exceptStep, finallyStep]

/-- Witness for `C6_dead_consumer`: one dead `QueueHandler` and one valid
record. -/
theorem C6_dead_consumer_witness :
    (processOneLine [⟨true, false⟩] 1000 5
        (RawLine.parsed
          (PyJson.obj ["in_reply_to_status_id", "user", "id"]))).exc =
      some PyExc.systemExit ∧
    connectedLoop [⟨true, false⟩] 1000
        [RawLine.parsed (PyJson.obj ["in_reply_to_status_id", "user", "id"]),
          RawLine.empty] 5 0 ⟨none, none⟩ =
      ⟨(processOneLine [⟨true, false⟩] 1000 5
          (RawLine.parsed
            (PyJson.obj ["in_reply_to_status_id", "user", "id"]))).counter,
        0, ⟨none, none⟩, some PyExc.systemExit⟩ ∧
    (streamIter [⟨true, false⟩] 1000 ⟨⟨none, none⟩, 5, false⟩
        (ConnAttempt.opened
          [RawLine.parsed (PyJson.obj ["in_reply_to_status_id", "user", "id"]),
            RawLine.empty] none)).raised = some PyExc.systemExit ∧
    (streamIter [⟨true, false⟩] 1000 ⟨⟨none, none⟩, 5, false⟩
        (ConnAttempt.opened
          [RawLine.parsed (PyJson.obj ["in_reply_to_status_id", "user", "id"]),
            RawLine.empty] none)).closedResp = true := by
  have h := C6_dead_consumer [⟨true, false⟩] 1000 5
    (PyJson.obj ["in_reply_to_status_id", "user", "id"])
    (RawLine.parsed (PyJson.obj ["in_reply_to_status_id", "user", "id"]))
    [RawLine.empty] 0 ⟨none, none⟩ ⟨⟨none, none⟩, 5, false⟩
    [RawLine.parsed (PyJson.obj ["in_reply_to_status_id", "user", "id"]),
      RawLine.empty] none
  have h3 := h.2.2 (by decide)
  exact ⟨h.1 ⟨⟨true, false⟩, by simp, rfl, rfl⟩ rfl,
    h.2.1 (by decide), h3.1, h3.2⟩

/-! ## Claim C2 -/

/-- C2: whenever the `Connected` state was actually entered (the POST
returned and `resp` was bound), the `finally` block closes the
connection on every exit, normal or exceptional.  BUT the claim that no
transient transport fault ever propagates out of the session loop fails:
on the very first iteration, a connect-phase fault is raised before
`resp` is ever bound, the `except` clause absorbs it (the fixed sleep
runs), and then the `finally` block evaluates `resp.close()` on an
unbound local — `UnboundLocalError` propagates out of the `while` loop,
killing the session. -/
theorem C2_release_and_unbound_resp :
    (∀ (handlers : List Handler) (ws : Nat) (st : LoopState)
      (lines : List RawLine) (ending : Option TransportExc),
      (streamIter handlers ws st
        (ConnAttempt.opened lines ending)).closedResp = true) ∧
    streamIter [] 1000 ⟨resetBackoff, 0, false⟩
        (ConnAttempt.failed TransportExc.connectTimeout) =
      { backoffSt := resetBackoff, counter := 0, respBound := false,
        closedResp := false, fixedSlept := true, backoffCat := none,
        backoffDelay := none,
        raised := some PyExc.unboundLocalError } := by
  constructor
  · intro handlers ws st lines ending
    rcases hout : connectedLoop handlers ws lines st.counter 0 st.backoffSt
      with ⟨oc, od, ob, oe⟩
    cases oe with
    | some e =>
      rcases hex : exceptStep ob (some e) with ⟨b2, p2, f2, c2, d2⟩
      simp [streamIter, hout, hex, finallyStep]
    | none =>
      cases ending with
      | some e =>
        rcases hex : exceptStep ob (some (PyExc.transport e))
          with ⟨b2, p2, f2, c2, d2⟩
        simp [streamIter, hout, hex, finallyStep]
      | none =>
        cases hb : backoff ob "tcp" with
        | ok bd =>
          rcases hex : exceptStep bd.1 none with ⟨b2, p2, f2, c2, d2⟩
          simp [streamIter, hout, hb, hex, finallyStep]
        | error e =>
          rcases hex : exceptStep ob (some e) with ⟨b2, p2, f2, c2, d2⟩
          simp [streamIter, hout, hb, hex, finallyStep]
  · rfl

/-! ## Claim C3 -/

/-- C3 counterexample: on the very first iteration (no `resp` ever
bound), a connect-phase timeout takes the fixed sleep but is NOT
followed by an immediate retry: the `finally` block's `resp.close()`
raises `UnboundLocalError` and the session loop terminates. -/
theorem C3_counterexample :
    (streamIter [] 1000 ⟨resetBackoff, 0, false⟩
      (ConnAttempt.failed TransportExc.connectTimeout)).fixedSlept = true ∧
    (streamIter [] 1000 ⟨resetBackoff, 0, false⟩
      (ConnAttempt.failed TransportExc.connectTimeout)).raised =
        some PyExc.unboundLocalError :=
  ⟨rfl, rfl⟩

/-- C3 amended: classification of connection-ending events.  A
connect-phase timeout takes the fixed 0.5 s sleep and never consults the
backoff controller (no category, backoff state untouched), and is
followed by an immediate retry provided some earlier iteration had
already bound a connection object (on the very first connection attempt
the `finally` block's `resp.close()` instead raises `UnboundLocalError`
after the sleep and the session terminates); read/stall timeout,
connection error, socket error and a normal end of stream all back off
under `tcp`; an HTTP error with status 420 backs off under `http_420`;
any other HTTP error backs off under `http`. -/
theorem C3_classification :
    ∀ (handlers : List Handler) (ws : Nat) (st : LoopState)
      (lines : List RawLine) (s : Nat),
      conn_timeout_sleep = 1/2 ∧
      (streamIter handlers ws st
        (ConnAttempt.failed TransportExc.connectTimeout)).fixedSlept = true ∧
      (streamIter handlers ws st
        (ConnAttempt.failed TransportExc.connectTimeout)).backoffCat = none ∧
      (streamIter handlers ws st
        (ConnAttempt.failed TransportExc.connectTimeout)).backoffSt =
          st.backoffSt ∧
      (st.respBound = true →
        (streamIter handlers ws st
          (ConnAttempt.failed TransportExc.connectTimeout)).raised = none) ∧
      (streamIter handlers ws st
        (ConnAttempt.failed TransportExc.readTimeout)).backoffCat =
          some "tcp" ∧
      (streamIter handlers ws st
        (ConnAttempt.failed TransportExc.connectionError)).backoffCat =
          some "tcp" ∧
      (streamIter handlers ws st
        (ConnAttempt.failed TransportExc.socketError)).backoffCat =
          some "tcp" ∧
      (streamIter handlers ws st
        (ConnAttempt.failed (TransportExc.httpError 420))).backoffCat =
          some "http_420" ∧
      (s ≠ 420 →
        (streamIter handlers ws st
          (ConnAttempt.failed (TransportExc.httpError s))).backoffCat =
            some "http") ∧
      ((connectedLoop handlers ws lines st.counter 0 st.backoffSt).exc =
          none →
        (streamIter handlers ws st
          (ConnAttempt.opened lines none)).backoffCat = some "tcp") := by
  intro handlers ws st lines s
  refine ⟨rfl, ?_, ?_, ?_, ?_, ?_, ?_, ?_, ?_, ?_, ?_⟩
  · rcases hf : finallyStep st.respBound none with ⟨cl, fe⟩
    simp [streamIter, exceptStep, hf]
  · rcases hf : finallyStep st.respBound none with ⟨cl, fe⟩
    simp [streamIter, exceptStep, hf, orO]
  · rcases hf : finallyStep st.respBound none with ⟨cl, fe⟩
    simp [streamIter, exceptStep, hf]
  · intro hrb
    simp [streamIter, exceptStep, finallyStep, hrb]
  · cases hb : backoff st.backoffSt "tcp" with
    | ok bd => simp [streamIter, exceptStep, hb, finallyStep, orO]
    | error e => simp [streamIter, exceptStep, hb, finallyStep, orO]
  · cases hb : backoff st.backoffSt "tcp" with
    | ok bd => simp [streamIter, exceptStep, hb, finallyStep, orO]
    | error e => simp [streamIter, exceptStep, hb, finallyStep, orO]
  · cases hb : backoff st.backoffSt "tcp" with
    | ok bd => simp [streamIter, exceptStep, hb, finallyStep, orO]
    | error e => simp [streamIter, exceptStep, hb, finallyStep, orO]
  · cases hb : backoff st.backoffSt "http_420" with
    | ok bd => simp [streamIter, exceptStep, hb, finallyStep, orO]
    | error e => simp [streamIter, exceptStep, hb, finallyStep, orO]
  · intro hs
    cases hb : backoff st.backoffSt "http" with
    | ok bd => simp [streamIter, exceptStep, hs, hb, finallyStep, orO]
    | error e => simp [streamIter, exceptStep, hs, hb, finallyStep, orO]
  · intro hexc
    rcases hout : connectedLoop handlers ws lines st.counter 0 st.backoffSt
      with ⟨oc, od, ob, oe⟩
    rw [hout] at hexc
    simp only at hexc
    subst hexc
    cases hb : backoff ob "tcp" with
    | ok bd =>
      rcases hex : exceptStep bd.1 none with ⟨b2, p2, f2, c2, d2⟩
      simp [streamIter, hout, hb, hex, orO]
    | error e =>
      rcases hex : exceptStep ob (some e) with ⟨b2, p2, f2, c2, d2⟩
      simp [streamIter, hout, hb, hex, orO]

/-- Witness for `C3_classification` at concrete inputs, with `resp`
bound by an earlier iteration so the connect-timeout path retries. -/
theorem C3_classification_witness :
    (streamIter [] 1000 ⟨⟨none, none⟩, 0, true⟩
      (ConnAttempt.failed (TransportExc.httpError 500))).backoffCat =
        some "http" ∧
    (streamIter [] 1000 ⟨⟨none, none⟩, 0, true⟩
      (ConnAttempt.opened [] none)).backoffCat = some "tcp" ∧
    (streamIter [] 1000 ⟨⟨none, none⟩, 0, true⟩
      (ConnAttempt.failed TransportExc.connectTimeout)).fixedSlept = true ∧
    (streamIter [] 1000 ⟨⟨none, none⟩, 0, true⟩
      (ConnAttempt.failed TransportExc.connectTimeout)).raised = none := by
  have h := C3_classification [] 1000 ⟨⟨none, none⟩, 0, true⟩ [] 500
  exact ⟨h.2.2.2.2.2.2.2.2.2.1 (by decide), h.2.2.2.2.2.2.2.2.2.2 rfl,
    h.2.1, h.2.2.2.2.1 rfl⟩

/-! ## Claim C5 -/

/-- C5: within one connection the line counter is incremented once per
received line whatever its validity (the lines of `a` may be empty
keep-alives, malformed lines, or valid records — any line whose
processing raises nothing), and when it reaches exactly 8 the backoff
state is reset and the counter zeroed while processing CONTINUES with
the remaining lines `b` of the same connection (no close, no
reconnect); below 8 the counter is just the number of lines seen and the
backoff state is untouched. -/
theorem C5_health_reset :
    ∀ (handlers : List Handler) (ws : Nat) (a b : List RawLine)
      (c0 d0 : Nat) (bst : BackoffState),
      (∀ l ∈ a, ∀ c, (processOneLine handlers ws c l).exc = none) →
      d0 < 8 → d0 + a.length ≤ 8 →
      ∃ c1,
        connectedLoop handlers ws (a ++ b) c0 d0 bst =
          if d0 + a.length = 8 then
            connectedLoop handlers ws b c1 0 resetBackoff
          else connectedLoop handlers ws b c1 (d0 + a.length) bst := by
  intro handlers ws a
  induction a with
  | nil =>
    intro b c0 d0 bst _ hd0 _
    refine ⟨c0, ?_⟩
    have hne : ¬(d0 + ([] : List RawLine).length = 8) := by
      simp only [List.length_nil, Nat.add_zero]
      omega
    rw [if_neg hne]
    simp
  | cons l a' ih =>
    intro b c0 d0 bst hexc hd0 hlen
    have hl : (processOneLine handlers ws c0 l).exc = none :=
      hexc l (by simp) c0
    have hstep : connectedLoop handlers ws (l :: (a' ++ b)) c0 d0 bst =
        if 8 ≤ d0 + 1 then
          connectedLoop handlers ws (a' ++ b)
            (processOneLine handlers ws c0 l).counter 0 resetBackoff
        else
          connectedLoop handlers ws (a' ++ b)
            (processOneLine handlers ws c0 l).counter (d0 + 1) bst := by
      show (match (processOneLine handlers ws c0 l).exc with
        | some e =>
          (⟨(processOneLine handlers ws c0 l).counter, d0, bst, some e⟩ :
            ConnLoopOut)
        | none =>
          if 8 ≤ d0 + 1 then
            connectedLoop handlers ws (a' ++ b)
              (processOneLine handlers ws c0 l).counter 0 resetBackoff
          else
            connectedLoop handlers ws (a' ++ b)
              (processOneLine handlers ws c0 l).counter (d0 + 1) bst) = _
      rw [hl]
    rw [List.cons_append]
    by_cases h8 : 8 ≤ d0 + 1
    · have ha' : a' = [] := by
        simp only [List.length_cons] at hlen
        exact List.length_eq_zero.mp (by omega)
      subst ha'
      refine ⟨(processOneLine handlers ws c0 l).counter, ?_⟩
      have hcond : d0 + ([l] : List RawLine).length = 8 := by
        simp only [List.length_singleton]
        omega
      rw [hstep, if_pos h8, if_pos hcond]
      simp
    · have hih := ih b (processOneLine handlers ws c0 l).counter (d0 + 1) bst
        (fun l' hl' => hexc l' (List.mem_cons_of_mem l hl'))
        (by omega)
        (by simp only [List.length_cons] at hlen ⊢; omega)
      rcases hih with ⟨c1, hc1⟩
      refine ⟨c1, ?_⟩
      rw [hstep, if_neg h8, hc1]
      simp only [List.length_cons]
      have harg : d0 + 1 + a'.length = d0 + (a'.length + 1) := by omega
      rw [harg]

/-- Witness for `C5_health_reset`: 8 keep-alive lines (no valid record
at all) reset the backoff state mid-connection and processing continues
with the rest of the same connection's lines. -/
theorem C5_health_reset_witness :
    ∃ c1,
      connectedLoop [] 1000
          (List.replicate 8 RawLine.empty ++ [RawLine.invalid "x"]) 0 0
          ⟨some 2, some "tcp"⟩ =
        if 0 + (List.replicate 8 RawLine.empty).length = 8 then
          connectedLoop [] 1000 [RawLine.invalid "x"] c1 0 resetBackoff
        else
          connectedLoop [] 1000 [RawLine.invalid "x"] c1
            (0 + (List.replicate 8 RawLine.empty).length)
            ⟨some 2, some "tcp"⟩ :=
  C5_health_reset [] 1000 (List.replicate 8 RawLine.empty)
    [RawLine.invalid "x"] 0 0 ⟨some 2, some "tcp"⟩
    (fun l hl c => by rw [List.eq_of_mem_replicate hl]; rfl) (by omega)
    (by simp)
